import Mathlib

/-! Shallow embedding of the consumption-optimization routine
`generateOptimizationData` of the WealthPath repository, together with
theorems checking the specification's statements about it.

The source routine takes a parameter record, derives the horizon
`T = lifeExpectancy - currentAge`, the discount factor
`beta = 1 / (1 + rho)` and the Euler growth rate
`growthRate = (beta * (1 + r)) ^ (1 / sigma)`, runs a 50-step bisection
on the initial-consumption bracket `[K0 * 0.01, K0 * 0.15]` using the
forward capital simulation as oracle, and finally rebuilds the
per-period series, clamping each recorded capital at zero.

Numbers are modelled as real numbers.  The two age fields are integers;
a JavaScript loop `for (t = 0; t < T; t++)` executes `T.toNat` times and
`for (t = 0; t <= T; t++)` executes `(T + 1).toNat` times, which is how
the integer horizon enters the Nat-indexed recursions below. -/

namespace WealthPath

noncomputable section

/-- Input record of `generateOptimizationData` (shape of `defaultParams`). -/
structure OptimizationParams where
  initialCapital : ℝ
  annualReturn : ℝ
  discountRate : ℝ
  riskAversion : ℝ
  lifeExpectancy : ℤ
  currentAge : ℤ
  inheritanceTarget : ℝ

/-- One entry of the returned series: `data.push({period, capital, consumption})`. -/
structure PeriodData where
  period : ℕ
  capital : ℝ
  consumption : ℝ

/-- `const T = params.lifeExpectancy - params.currentAge`. -/
def horizon (p : OptimizationParams) : ℤ :=
  p.lifeExpectancy - p.currentAge

/-- `const beta = 1 / (1 + rho)`. -/
def beta (p : OptimizationParams) : ℝ :=
  1 / (1 + p.discountRate)

/-- `const growthRate = Math.pow(beta * (1 + r), 1 / sigma)`, modelled with
real exponentiation. -/
def growthRate (p : OptimizationParams) : ℝ :=
  (beta p * (1 + p.annualReturn)) ^ ((1 : ℝ) / p.riskAversion)

/-- Capital after `n` executions of the body of the inner loop
`for (t = 0; t < T; t++) { const C = C1 * Math.pow(growthRate, t);
K = (K - C) * (1 + r) }`, starting from `K = params.initialCapital`. -/
def capAfter (p : OptimizationParams) (C1 : ℝ) : ℕ → ℝ
  | 0 => p.initialCapital
  | n + 1 => (capAfter p C1 n - C1 * growthRate p ^ n) * (1 + p.annualReturn)

/-- The value of `K` when the inner simulation loop has run its full
course of `T` iterations: the terminal capital used by the bisection. -/
def terminalCapital (p : OptimizationParams) (C1 : ℝ) : ℝ :=
  capAfter p C1 (horizon p).toNat

/-- Accumulated coefficient of `C1` in `capAfter`:
`capAfter p C1 n = K0 * (1+r)^n - C1 * Bcoef p n`. -/
def Bcoef (p : OptimizationParams) : ℕ → ℝ
  | 0 => 0
  | n + 1 => (Bcoef p n + growthRate p ^ n) * (1 + p.annualReturn)

/-- One pass of the bisection loop body: `C1 = (low + high) / 2`,
re-simulate, then `if (K > target) low = C1 else high = C1`. -/
def solverStep (p : OptimizationParams) (lh : ℝ × ℝ) : ℝ × ℝ :=
  if p.inheritanceTarget < terminalCapital p ((lh.1 + lh.2) / 2) then
    ((lh.1 + lh.2) / 2, lh.2)
  else
    (lh.1, (lh.1 + lh.2) / 2)

/-- The bracket `(low, high)` after `n` iterations of the bisection loop,
starting from `low = K * 0.01`, `high = K * 0.15`. -/
def solverIter (p : OptimizationParams) : ℕ → ℝ × ℝ
  | 0 => (p.initialCapital * 0.01, p.initialCapital * 0.15)
  | n + 1 => solverStep p (solverIter p n)

/-- The value of the variable `C1` after the 50-iteration loop: the
midpoint computed in the final iteration, i.e. of the bracket reached
after 49 updates.  (The seed `C1 = K * 0.04` written before the loop is
dead: the loop always runs at least once and overwrites it.) -/
def solvedC1 (p : OptimizationParams) : ℝ :=
  ((solverIter p 49).1 + (solverIter p 49).2) / 2

/-- The series loop `for (t = 0; t <= T; t++)`, with `n` iterations left
to run and `t` the current period index: pushes
`{period: t, capital: Math.max(0, K), consumption: C1 * growthRate^t}`
and updates `K = (K - consumption) * (1 + r)`. -/
def buildSeries (p : OptimizationParams) (C1 : ℝ) : ℝ → ℕ → ℕ → List PeriodData
  | _, _, 0 => []
  | K, t, n + 1 =>
    ⟨t, max 0 K, C1 * growthRate p ^ t⟩ ::
      buildSeries p C1 ((K - C1 * growthRate p ^ t) * (1 + p.annualReturn)) (t + 1) n

/-- The whole routine: solve for `C1`, then rebuild and return the series
(the loop `for (t = 0; t <= T; t++)` runs `(T + 1).toNat` times). -/
def generateOptimizationData (p : OptimizationParams) : List PeriodData :=
  buildSeries p (solvedC1 p) p.initialCapital 0 (horizon p + 1).toNat

/-- Discount factor exactly as the specification words it. -/
def specBeta (rho : ℝ) : ℝ :=
  1 / (1 + rho)

/-- Consumption growth rate exactly as the specification words it:
`((1/(1+rho)) * (1+r)) ^ (1/sigma)`. -/
def specGrowthRate (r rho sigma : ℝ) : ℝ :=
  (1 / (1 + rho) * (1 + r)) ^ ((1 : ℝ) / sigma)

/-- Concrete input with one-year horizon and an unreachable bequest
target (the infeasible scenario of the specification: capital 10000,
target 9000000). -/
def pC6 : OptimizationParams :=
  ⟨10000, 0, 0, 1, 85, 84, 9000000⟩

/-- Concrete invalid-by-the-spec input: life expectancy 30 below current
age 45, remaining fields the documented defaults. -/
def pC7 : OptimizationParams :=
  ⟨1000000, 0.05, 0.03, 2, 30, 45, 200000⟩

/-- Concrete valid input with a two-year horizon. -/
def pC8 : OptimizationParams :=
  ⟨100, 0, 0, 1, 37, 35, 0⟩

/-- Concrete input whose horizon is zero (life expectancy equals the
current age). -/
def pC9 : OptimizationParams :=
  ⟨5, 0, 0, 1, 35, 35, 0⟩

/-- The single entry produced for `pC9`. -/
def eC9 : PeriodData :=
  ⟨0, max 0 pC9.initialCapital, solvedC1 pC9 * growthRate pC9 ^ 0⟩

/-- Concrete input whose horizon is zero, for the totality theorem. -/
def pC10 : OptimizationParams :=
  ⟨7, 0, 0, 2, 35, 35, 0⟩

/-- Concrete valid input with a one-year horizon. -/
def pC4 : OptimizationParams :=
  ⟨100, 0, 0, 2, 85, 84, 0⟩

/-- Concrete feasible input on which the 50-step bisection stops 14/5
currency units away from the bequest target: capital 3 * 2 ^ 50, zero
return, discount rate -14/17 (so the growth rate is 17/3), horizon 2,
target 0, reached exactly at the upper bracket bound. -/
def pC1x : OptimizationParams :=
  ⟨3377699720527872, 0, -(14 / 17), 1, 85, 83, 0⟩

/-- Concrete feasible input with a valid initial bracket, for the
error-bound theorem. -/
def pC1w : OptimizationParams :=
  ⟨100, 0, 0, 1, 85, 84, 95⟩

/-- Closed form of the simulated capital: the recurrence is affine in the
candidate consumption, with slope `Bcoef`. -/
lemma capAfter_eq (p : OptimizationParams) (C1 : ℝ) (n : ℕ) :
    capAfter p C1 n =
      p.initialCapital * (1 + p.annualReturn) ^ n - C1 * Bcoef p n := by
  induction n with
  | zero => simp [capAfter, Bcoef]
  | succ n ih =>
    simp only [capAfter, Bcoef, ih, pow_succ]
    ring

/-- `Bcoef` as the explicit sum appearing in the specification's
description of the simulator. -/
lemma Bcoef_eq_sum (p : OptimizationParams) (n : ℕ) :
    Bcoef p n =
      ∑ t ∈ Finset.range n, growthRate p ^ t * (1 + p.annualReturn) ^ (n - t) := by
  induction n with
  | zero => simp [Bcoef]
  | succ n ih =>
    rw [Bcoef, ih, Finset.sum_range_succ, show n + 1 - n = 1 by omega, pow_one,
      add_mul, Finset.sum_mul]
    congr 1
    refine Finset.sum_congr rfl fun t ht => ?_
    rw [Nat.succ_sub (Nat.le_of_lt (Finset.mem_range.mp ht)), pow_succ]
    ring

lemma Bcoef_nonneg (p : OptimizationParams) (hg : 0 ≤ growthRate p)
    (hr : 0 ≤ 1 + p.annualReturn) (n : ℕ) : 0 ≤ Bcoef p n := by
  induction n with
  | zero => simp [Bcoef]
  | succ n ih =>
    exact mul_nonneg (add_nonneg ih (pow_nonneg hg n)) hr

lemma Bcoef_pos (p : OptimizationParams) (hg : 0 < growthRate p)
    (hr : 0 < 1 + p.annualReturn) (n : ℕ) (hn : 1 ≤ n) : 0 < Bcoef p n := by
  obtain ⟨m, rfl⟩ : ∃ m, n = m + 1 := ⟨n - 1, by omega⟩
  rw [Bcoef]
  exact mul_pos
    (add_pos_of_nonneg_of_pos (Bcoef_nonneg p hg.le hr.le m) (pow_pos hg m)) hr

lemma buildSeries_length (p : OptimizationParams) (C1 : ℝ) (K : ℝ) (t n : ℕ) :
    (buildSeries p C1 K t n).length = n := by
  induction n generalizing K t with
  | zero => rfl
  | succ n ih => simp [buildSeries, ih]

lemma generateOptimizationData_length (p : OptimizationParams) :
    (generateOptimizationData p).length = (horizon p + 1).toNat :=
  buildSeries_length ..

lemma capAfter_succ (p : OptimizationParams) (C1 : ℝ) (n : ℕ) :
    capAfter p C1 (n + 1) =
      (capAfter p C1 n - C1 * growthRate p ^ n) * (1 + p.annualReturn) := by
  rw [capAfter]

lemma buildSeries_map_period (p : OptimizationParams) (C1 : ℝ) (K : ℝ) (t n : ℕ) :
    (buildSeries p C1 K t n).map PeriodData.period = List.range' t n := by
  induction n generalizing K t with
  | zero => rfl
  | succ n ih => simp [buildSeries, List.range'_succ, ih]

/-- Every entry pushed by the series loop records the clamped running
capital and the raw geometric consumption of its period. -/
lemma buildSeries_mem (p : OptimizationParams) (C1 : ℝ) (n t : ℕ)
    (e : PeriodData) (he : e ∈ buildSeries p C1 (capAfter p C1 t) t n) :
    e.capital = max 0 (capAfter p C1 e.period) ∧
      e.consumption = C1 * growthRate p ^ e.period := by
  induction n generalizing t with
  | zero => simp [buildSeries] at he
  | succ n ih =>
    simp only [buildSeries, List.mem_cons] at he
    rcases he with rfl | he
    · exact ⟨rfl, rfl⟩
    · exact ih (t + 1) (by rw [capAfter_succ]; exact he)

/-- Terminal capital is affine in the candidate consumption. -/
lemma terminalCapital_eq (p : OptimizationParams) (C1 : ℝ) :
    terminalCapital p C1 =
      p.initialCapital * (1 + p.annualReturn) ^ (horizon p).toNat -
        C1 * Bcoef p (horizon p).toNat :=
  capAfter_eq ..

/-- Terminal capital is antitone in the consumption when the slope
coefficient is nonnegative. -/
lemma terminalCapital_le (p : OptimizationParams)
    (hB : 0 ≤ Bcoef p (horizon p).toNat) (c c' : ℝ) (h : c ≤ c') :
    terminalCapital p c' ≤ terminalCapital p c := by
  rw [terminalCapital_eq, terminalCapital_eq]
  have := mul_le_mul_of_nonneg_right h hB
  linarith

/-- Bisection invariant: as long as the initial bracket is valid
(simulated capital at `low` at least the target, at `high` at most the
target), every later bracket is ordered, keeps both simulation bounds,
and halves in width at each step. -/
lemma solver_bracket_invariant (p : OptimizationParams)
    (h0 : p.initialCapital * 0.01 ≤ p.initialCapital * 0.15)
    (hlow : p.inheritanceTarget ≤ terminalCapital p (p.initialCapital * 0.01))
    (hhigh : terminalCapital p (p.initialCapital * 0.15) ≤ p.inheritanceTarget) :
    ∀ n, (solverIter p n).1 ≤ (solverIter p n).2 ∧
      (solverIter p n).2 - (solverIter p n).1 =
        (p.initialCapital * 0.15 - p.initialCapital * 0.01) / 2 ^ n ∧
      p.inheritanceTarget ≤ terminalCapital p (solverIter p n).1 ∧
      terminalCapital p (solverIter p n).2 ≤ p.inheritanceTarget := by
  intro n
  induction n with
  | zero => exact ⟨h0, by simp [solverIter], hlow, hhigh⟩
  | succ n ih =>
    obtain ⟨hle, hw, hl, hh⟩ := ih
    rw [solverIter, solverStep]
    have hhalf : (p.initialCapital * 0.15 - p.initialCapital * 0.01) / 2 ^ (n + 1) =
        ((solverIter p n).2 - (solverIter p n).1) / 2 := by
      rw [hw, pow_succ, ← div_div]
    split
    · refine ⟨by dsimp only; linarith, ?_, le_of_lt (by assumption), hh⟩
      dsimp only
      rw [hhalf]
      ring
    · refine ⟨by dsimp only; linarith, ?_, hl, le_of_not_lt (by assumption)⟩
      dsimp only
      rw [hhalf]
      ring

/-- When every consumption level strictly above the lower bracket bound
simulates to at most the target, the bisection never raises `low`: the
bracket after `n` steps is `(low0, low0 + width / 2 ^ n)`. -/
lemma solver_high_collapses (p : OptimizationParams)
    (h0 : p.initialCapital * 0.01 < p.initialCapital * 0.15)
    (hsim : ∀ c, p.initialCapital * 0.01 < c →
      terminalCapital p c ≤ p.inheritanceTarget) :
    ∀ n, solverIter p n = (p.initialCapital * 0.01,
      p.initialCapital * 0.01 +
        (p.initialCapital * 0.15 - p.initialCapital * 0.01) / 2 ^ n) := by
  intro n
  induction n with
  | zero => simp [solverIter]
  | succ n ih =>
    have hmid : p.initialCapital * 0.01 <
        ((solverIter p n).1 + (solverIter p n).2) / 2 := by
      rw [ih]
      dsimp only
      have h2 : (0 : ℝ) < 2 ^ n := by positivity
      have : 0 < (p.initialCapital * 0.15 - p.initialCapital * 0.01) / 2 ^ n :=
        div_pos (by linarith) h2
      linarith
    rw [solverIter, solverStep, if_neg (not_lt.mpr (hsim _ hmid)), ih]
    dsimp only
    rw [Prod.mk.injEq]
    constructor
    · rfl
    · rw [pow_succ]
      ring

/-- When every consumption level strictly below the upper bracket bound
simulates to strictly more than the target, the bisection never lowers
`high`: the bracket after `n` steps is `(high0 - width / 2 ^ n, high0)`. -/
lemma solver_low_collapses (p : OptimizationParams)
    (h0 : p.initialCapital * 0.01 < p.initialCapital * 0.15)
    (hsim : ∀ c, c < p.initialCapital * 0.15 →
      p.inheritanceTarget < terminalCapital p c) :
    ∀ n, solverIter p n = (p.initialCapital * 0.15 -
        (p.initialCapital * 0.15 - p.initialCapital * 0.01) / 2 ^ n,
      p.initialCapital * 0.15) := by
  intro n
  induction n with
  | zero => simp [solverIter]
  | succ n ih =>
    have hmid : ((solverIter p n).1 + (solverIter p n).2) / 2 <
        p.initialCapital * 0.15 := by
      rw [ih]
      dsimp only
      have h2 : (0 : ℝ) < 2 ^ n := by positivity
      have : 0 < (p.initialCapital * 0.15 - p.initialCapital * 0.01) / 2 ^ n :=
        div_pos (by linarith) h2
      linarith
    rw [solverIter, solverStep, if_pos (hsim _ hmid), ih]
    dsimp only
    rw [Prod.mk.injEq]
    constructor
    · rw [pow_succ]
      ring
    · rfl

/-- A zero-horizon input produces exactly one entry, for period 0. -/
lemma generateOptimizationData_singleton (p : OptimizationParams)
    (h : p.lifeExpectancy = p.currentAge) :
    generateOptimizationData p =
      [⟨0, max 0 p.initialCapital, solvedC1 p * growthRate p ^ 0⟩] := by
  rw [generateOptimizationData,
    show (horizon p + 1).toNat = 1 by unfold horizon; omega]
  rfl

/-- C2. The bisection solver starts from the bracket
`(initial_capital * 0.01, initial_capital * 0.15)`; each of its steps
takes the midpoint of the current bracket, re-simulates the terminal
capital at the midpoint, raises `low` to the midpoint when that capital
strictly exceeds the target and otherwise lowers `high` to the midpoint;
and the initial consumption handed to the series builder is the midpoint
computed in the fiftieth and final iteration, i.e. of the bracket
reached after 49 updates. -/
theorem C2_solver_structure (p : OptimizationParams) (n : ℕ) :
    solverIter p 0 = (p.initialCapital * 0.01, p.initialCapital * 0.15) ∧
    solverIter p (n + 1) =
      (if p.inheritanceTarget <
          terminalCapital p (((solverIter p n).1 + (solverIter p n).2) / 2) then
        (((solverIter p n).1 + (solverIter p n).2) / 2, (solverIter p n).2)
      else
        ((solverIter p n).1, ((solverIter p n).1 + (solverIter p n).2) / 2)) ∧
    solvedC1 p = ((solverIter p 49).1 + (solverIter p 49).2) / 2 := by
  refine ⟨rfl, ?_, rfl⟩
  rw [solverIter, solverStep]

/-- C3. The terminal-capital simulation starts at the initial
capital, applies `K := (K - C1 * g ^ t) * (1 + r)` for the periods
`t = 0 .. T - 1`, and returns the capital after those `T` updates; in
closed form this equals
`K0 * (1+r) ^ T - C1 * sum over t < T of g ^ t * (1+r) ^ (T - t)`,
so period `T` itself is never consumed. -/
theorem C3_terminal_capital_closed_form (p : OptimizationParams) (C1 : ℝ) :
    capAfter p C1 0 = p.initialCapital ∧
    (∀ t : ℕ, capAfter p C1 (t + 1) =
      (capAfter p C1 t - C1 * growthRate p ^ t) * (1 + p.annualReturn)) ∧
    terminalCapital p C1 = capAfter p C1 (horizon p).toNat ∧
    terminalCapital p C1 =
      p.initialCapital * (1 + p.annualReturn) ^ (horizon p).toNat -
        C1 * ∑ t ∈ Finset.range (horizon p).toNat,
          growthRate p ^ t * (1 + p.annualReturn) ^ ((horizon p).toNat - t) := by
  refine ⟨rfl, capAfter_succ p C1, rfl, ?_⟩
  rw [terminalCapital_eq, ← Bcoef_eq_sum]

/-- C5. The computed discount factor and growth rate agree exactly
with the specification formulas `1/(1+rho)` and
`((1/(1+rho)) * (1+r)) ^ (1/sigma)`, and neither changes when the
initial capital, the inheritance target or the two ages are replaced by
anything else: both are functions of `(r, rho, sigma)` only. -/
theorem C5_growth_rate_identity (p : OptimizationParams) :
    beta p = specBeta p.discountRate ∧
    growthRate p =
      specGrowthRate p.annualReturn p.discountRate p.riskAversion ∧
    ∀ (K T : ℝ) (a l : ℤ),
      beta ⟨K, p.annualReturn, p.discountRate, p.riskAversion, l, a, T⟩ =
        beta p ∧
      growthRate ⟨K, p.annualReturn, p.discountRate, p.riskAversion, l, a, T⟩ =
        growthRate p :=
  ⟨rfl, rfl, fun _ _ _ _ => ⟨rfl, rfl⟩⟩

/-- C8. For a valid input (current age strictly below life
expectancy) the returned series has exactly `horizon + 1` entries and
its period indices are `0, 1, ..., horizon` in order. -/
theorem C8_series_length_periods (p : OptimizationParams)
    (h : p.currentAge < p.lifeExpectancy) :
    (generateOptimizationData p).length = (horizon p).toNat + 1 ∧
    (generateOptimizationData p).map PeriodData.period =
      List.range ((horizon p).toNat + 1) := by
  have hh : (horizon p + 1).toNat = (horizon p).toNat + 1 := by
    unfold horizon
    omega
  refine ⟨?_, ?_⟩
  · rw [generateOptimizationData_length, hh]
  · rw [generateOptimizationData, buildSeries_map_period, hh,
      List.range_eq_range']

/-- Witness for C8 at a concrete two-year-horizon input. -/
theorem C8_witness :
    pC8.currentAge < pC8.lifeExpectancy ∧
    (generateOptimizationData pC8).length = (horizon pC8).toNat + 1 ∧
    (generateOptimizationData pC8).map PeriodData.period =
      List.range ((horizon pC8).toNat + 1) :=
  ⟨by decide, (C8_series_length_periods pC8 (by decide)).1,
    (C8_series_length_periods pC8 (by decide)).2⟩

/-- C4. With validated rates (return and discount rate above -1,
positive risk aversion) and at least one simulated period, the terminal
capital is strictly decreasing in the candidate initial consumption. -/
theorem C4_terminal_capital_strict_anti (p : OptimizationParams)
    (hr : -1 < p.annualReturn) (hrho : -1 < p.discountRate)
    (_hsig : 0 < p.riskAversion) (hT : p.currentAge < p.lifeExpectancy)
    (c c' : ℝ) (hc : c < c') :
    terminalCapital p c' < terminalCapital p c := by
  have hr1 : (0 : ℝ) < 1 + p.annualReturn := by linarith
  have hrho1 : (0 : ℝ) < 1 + p.discountRate := by linarith
  have hb : 0 < beta p := by
    rw [beta]
    positivity
  have hg : 0 < growthRate p := Real.rpow_pos_of_pos (mul_pos hb hr1) _
  have hB : 0 < Bcoef p (horizon p).toNat := by
    refine Bcoef_pos p hg hr1 _ ?_
    unfold horizon
    omega
  rw [terminalCapital_eq, terminalCapital_eq]
  have := mul_lt_mul_of_pos_right hc hB
  linarith

/-- Witness for C4: at a concrete validated one-period input, consuming
1 instead of 0 strictly lowers the terminal capital. -/
theorem C4_witness :
    (-1 : ℝ) < pC4.annualReturn ∧ (-1 : ℝ) < pC4.discountRate ∧
    (0 : ℝ) < pC4.riskAversion ∧ pC4.currentAge < pC4.lifeExpectancy ∧
    (0 : ℝ) < 1 ∧ terminalCapital pC4 1 < terminalCapital pC4 0 :=
  ⟨by norm_num [pC4], by norm_num [pC4], by norm_num [pC4], by decide,
    by norm_num,
    C4_terminal_capital_strict_anti pC4 (by norm_num [pC4])
      (by norm_num [pC4]) (by norm_num [pC4]) (by decide) 0 1 (by norm_num)⟩

/-- C7 counterexample. On the specification's invalid-input scenario
(life expectancy 30, current age 45) the routine does not fail with any
error: it runs to completion and returns the empty list. -/
theorem C7_cex : generateOptimizationData pC7 = [] := by
  rw [generateOptimizationData, show (horizon pC7 + 1).toNat = 0 by decide]
  rfl

/-- C7 amended. The routine performs no parameter validation at all:
for every numeric input, valid or not, it derives the horizon as
`lifeExpectancy - currentAge` and returns a series of `(horizon + 1)`
(clamped at zero) entries, never an `InvalidParameter` failure. -/
theorem C7_amended_no_validation (p : OptimizationParams) :
    horizon p = p.lifeExpectancy - p.currentAge ∧
    (generateOptimizationData p).length = (horizon p + 1).toNat :=
  ⟨rfl, generateOptimizationData_length p⟩

/-- C9. Every entry of the returned series carries a non-negative
capital equal to the zero-clamped simulated capital of its period, while
its consumption is the raw, unclamped geometric value
`C1 * growthRate ^ period`. -/
theorem C9_capital_clamped (p : OptimizationParams) (e : PeriodData)
    (he : e ∈ generateOptimizationData p) :
    0 ≤ e.capital ∧
    e.capital = max 0 (capAfter p (solvedC1 p) e.period) ∧
    e.consumption = solvedC1 p * growthRate p ^ e.period := by
  have h := buildSeries_mem p (solvedC1 p) (horizon p + 1).toNat 0 e he
  refine ⟨?_, h.1, h.2⟩
  rw [h.1]
  exact le_max_left _ _

/-- Witness for C9 at a concrete zero-horizon input whose series is a
single entry. -/
theorem C9_witness :
    eC9 ∈ generateOptimizationData pC9 ∧
    0 ≤ eC9.capital ∧
    eC9.capital = max 0 (capAfter pC9 (solvedC1 pC9) eC9.period) ∧
    eC9.consumption = solvedC1 pC9 * growthRate pC9 ^ eC9.period := by
  have hm : eC9 ∈ generateOptimizationData pC9 := by
    rw [generateOptimizationData_singleton pC9 rfl]
    exact List.mem_singleton.mpr rfl
  exact ⟨hm, (C9_capital_clamped pC9 eC9 hm).1,
    (C9_capital_clamped pC9 eC9 hm).2.1, (C9_capital_clamped pC9 eC9 hm).2.2⟩

/-- C10. The routine is a total function of its numeric input and
reports no error anywhere: the returned series is empty exactly when the
life expectancy is below the current age, and a zero-horizon input
(life expectancy equal to the current age) yields a single period-0
entry. -/
theorem C10_total_no_error (p : OptimizationParams) :
    (generateOptimizationData p = [] ↔ p.lifeExpectancy < p.currentAge) ∧
    (p.lifeExpectancy = p.currentAge →
      generateOptimizationData p =
        [⟨0, max 0 p.initialCapital, solvedC1 p * growthRate p ^ 0⟩]) := by
  refine ⟨?_, generateOptimizationData_singleton p⟩
  rw [← List.length_eq_zero, generateOptimizationData_length]
  unfold horizon
  omega

/-- On the one-period input `pC6` the simulated terminal capital is an
explicit affine function of the candidate consumption. -/
lemma terminalCapital_pC6 (x : ℝ) : terminalCapital pC6 x = 10000 - x := by
  rw [terminalCapital, show (horizon pC6).toNat = 1 by decide, capAfter_succ]
  simp [capAfter, pC6]

/-- C6 counterexample. On the specification's infeasible scenario
(capital 10000, target 9000000) the target is unreachable at both
bracket ends, yet the routine does not fail with `InfeasibleTarget`: it
returns a two-entry series. -/
theorem C6_cex :
    terminalCapital pC6 (pC6.initialCapital * 0.01) < pC6.inheritanceTarget ∧
    terminalCapital pC6 (pC6.initialCapital * 0.15) < pC6.inheritanceTarget ∧
    (generateOptimizationData pC6).length = 2 := by
  refine ⟨?_, ?_, ?_⟩
  · rw [terminalCapital_pC6]
    norm_num [pC6]
  · rw [terminalCapital_pC6]
    norm_num [pC6]
  · rw [generateOptimizationData_length,
      show (horizon pC6 + 1).toNat = 2 by decide]

/-- C6 amended. The routine has no bracket validation, widening or
`InfeasibleTarget` failure: whenever the target strictly exceeds even
the terminal capital of the lower bracket bound (and the simulation is
monotone, i.e. growth rate and `1 + r` are nonnegative), the bisection
silently collapses onto the lower bound, returning the initial
consumption `K0 * 0.01 + (K0 * 0.15 - K0 * 0.01) / 2 ^ 50` together
with a full series instead of an error. -/
theorem C6_amended_no_failure (p : OptimizationParams)
    (hK : 0 < p.initialCapital) (hg : 0 ≤ growthRate p)
    (hr : 0 ≤ 1 + p.annualReturn)
    (hlow : terminalCapital p (p.initialCapital * 0.01) <
      p.inheritanceTarget) :
    solvedC1 p = p.initialCapital * 0.01 +
        (p.initialCapital * 0.15 - p.initialCapital * 0.01) / 2 ^ 50 ∧
    (generateOptimizationData p).length = (horizon p + 1).toNat := by
  have h0 : p.initialCapital * 0.01 < p.initialCapital * 0.15 := by nlinarith
  have hB : 0 ≤ Bcoef p (horizon p).toNat := Bcoef_nonneg p hg hr _
  have hsim : ∀ c, p.initialCapital * 0.01 < c →
      terminalCapital p c ≤ p.inheritanceTarget := fun c hc =>
    le_of_lt (lt_of_le_of_lt (terminalCapital_le p hB _ _ hc.le) hlow)
  have h49 := solver_high_collapses p h0 hsim 49
  refine ⟨?_, generateOptimizationData_length p⟩
  rw [solvedC1, h49]
  dsimp only
  rw [show (2 : ℝ) ^ 50 = 2 ^ 49 * 2 from by rw [pow_succ]]
  ring

/-- Witness for the amended C6 at the infeasible scenario itself. -/
theorem C6_amended_witness :
    (0 : ℝ) < pC6.initialCapital ∧ 0 ≤ growthRate pC6 ∧
    (0 : ℝ) ≤ 1 + pC6.annualReturn ∧
    terminalCapital pC6 (pC6.initialCapital * 0.01) <
      pC6.inheritanceTarget ∧
    (solvedC1 pC6 = pC6.initialCapital * 0.01 +
        (pC6.initialCapital * 0.15 - pC6.initialCapital * 0.01) / 2 ^ 50 ∧
      (generateOptimizationData pC6).length = (horizon pC6 + 1).toNat) := by
  have h1 : (0 : ℝ) < pC6.initialCapital := by norm_num [pC6]
  have h2 : 0 ≤ growthRate pC6 := by
    rw [growthRate]
    exact Real.rpow_nonneg (by norm_num [beta, pC6]) _
  have h3 : (0 : ℝ) ≤ 1 + pC6.annualReturn := by norm_num [pC6]
  have h4 : terminalCapital pC6 (pC6.initialCapital * 0.01) <
      pC6.inheritanceTarget := by
    rw [terminalCapital_pC6]
    norm_num [pC6]
  exact ⟨h1, h2, h3, h4, C6_amended_no_failure pC6 h1 h2 h3 h4⟩

/-- The growth rate of the input `pC1x` evaluates to `17/3`. -/
lemma growthRate_pC1x : growthRate pC1x = 17 / 3 := by
  rw [growthRate, show ((1 : ℝ) / pC1x.riskAversion) = 1 by norm_num [pC1x],
    Real.rpow_one, beta]
  norm_num [pC1x]

/-- On the two-period input `pC1x` the simulated terminal capital is an
explicit affine function of the candidate consumption. -/
lemma terminalCapital_pC1x (x : ℝ) :
    terminalCapital pC1x x = 3377699720527872 - 20 / 3 * x := by
  rw [terminalCapital, show (horizon pC1x).toNat = 2 by decide,
    capAfter_succ, capAfter_succ, growthRate_pC1x]
  simp [capAfter, pC1x]
  ring

/-- C1 counterexample. The input `pC1x` is validated and feasible:
consuming exactly 15 percent of the capital in period 0 leaves exactly
the bequest target.  Yet after the 50 bisection steps the achieved
final capital misses the target by exactly 14/5 = 2.8 currency units,
far above the specification's example tolerance of 0.01 (the code has
no configured tolerance at all). -/
theorem C1_cex :
    (0 : ℝ) ≤ pC1x.initialCapital ∧ (-1 : ℝ) < pC1x.annualReturn ∧
    (-1 : ℝ) < pC1x.discountRate ∧ (0 : ℝ) < pC1x.riskAversion ∧
    pC1x.currentAge < pC1x.lifeExpectancy ∧
    (0 : ℝ) ≤ pC1x.inheritanceTarget ∧
    terminalCapital pC1x (pC1x.initialCapital * 0.15) =
      pC1x.inheritanceTarget ∧
    |terminalCapital pC1x (solvedC1 pC1x) - pC1x.inheritanceTarget| =
      14 / 5 ∧
    (1 / 100 : ℝ) < 14 / 5 := by
  have h0 : pC1x.initialCapital * 0.01 < pC1x.initialCapital * 0.15 := by
    norm_num [pC1x]
  have hsim : ∀ c, c < pC1x.initialCapital * 0.15 →
      pC1x.inheritanceTarget < terminalCapital pC1x c := by
    intro c hc
    rw [terminalCapital_pC1x]
    norm_num [pC1x] at hc ⊢
    linarith
  have h49 := solver_low_collapses pC1x h0 hsim 49
  have hsol : solvedC1 pC1x = pC1x.initialCapital * 0.15 -
      (pC1x.initialCapital * 0.15 - pC1x.initialCapital * 0.01) / 2 ^ 50 := by
    rw [solvedC1, h49]
    dsimp only
    rw [show (2 : ℝ) ^ 50 = 2 ^ 49 * 2 from by rw [pow_succ]]
    ring
  have hval : terminalCapital pC1x (solvedC1 pC1x) = 14 / 5 := by
    rw [terminalCapital_pC1x, hsol]
    norm_num [pC1x]
  refine ⟨by norm_num [pC1x], by norm_num [pC1x], by norm_num [pC1x],
    by norm_num [pC1x], by decide, by norm_num [pC1x], ?_, ?_, by norm_num⟩
  · rw [terminalCapital_pC1x]
    norm_num [pC1x]
  · rw [hval, show pC1x.inheritanceTarget = 0 from rfl, sub_zero,
      abs_of_nonneg (by norm_num : (0 : ℝ) ≤ 14 / 5)]

/-- C1 amended. The code has no configured tolerance.  What holds
is an explicit error bound: whenever the initial bracket is valid
(terminal capital at the 1 percent bound at least the target, at the
15 percent bound at most the target) and the simulation is monotone,
the achieved final capital differs from the target by at most
`Bcoef * (K0 * 0.15 - K0 * 0.01) / 2 ^ 49` — a bound that grows with
the initial capital and is not below any fixed tolerance for all
feasible inputs. -/
theorem C1_amended_error_bound (p : OptimizationParams)
    (hK : 0 ≤ p.initialCapital) (hg : 0 ≤ growthRate p)
    (hr : 0 ≤ 1 + p.annualReturn)
    (hlow : p.inheritanceTarget ≤
      terminalCapital p (p.initialCapital * 0.01))
    (hhigh : terminalCapital p (p.initialCapital * 0.15) ≤
      p.inheritanceTarget) :
    |terminalCapital p (solvedC1 p) - p.inheritanceTarget| ≤
      Bcoef p (horizon p).toNat *
        ((p.initialCapital * 0.15 - p.initialCapital * 0.01) / 2 ^ 49) := by
  have h0 : p.initialCapital * 0.01 ≤ p.initialCapital * 0.15 := by nlinarith
  obtain ⟨hle, hw, hl, hh⟩ := solver_bracket_invariant p h0 hlow hhigh 49
  have hB : 0 ≤ Bcoef p (horizon p).toNat := Bcoef_nonneg p hg hr _
  have hml : (solverIter p 49).1 ≤ solvedC1 p := by
    rw [solvedC1]
    linarith
  have hmh : solvedC1 p ≤ (solverIter p 49).2 := by
    rw [solvedC1]
    linarith
  have h1 := terminalCapital_le p hB _ _ hml
  have h2 := terminalCapital_le p hB _ _ hmh
  have h3 : terminalCapital p (solverIter p 49).1 -
      terminalCapital p (solverIter p 49).2 =
      Bcoef p (horizon p).toNat *
        ((p.initialCapital * 0.15 - p.initialCapital * 0.01) / 2 ^ 49) := by
    rw [terminalCapital_eq, terminalCapital_eq, ← hw]
    ring
  rw [abs_le]
  constructor
  · linarith
  · linarith

/-- On the one-period input `pC1w` the simulated terminal capital is an
explicit affine function of the candidate consumption. -/
lemma terminalCapital_pC1w (x : ℝ) : terminalCapital pC1w x = 100 - x := by
  rw [terminalCapital, show (horizon pC1w).toNat = 1 by decide, capAfter_succ]
  simp [capAfter, pC1w]

/-- Witness for the amended C1 at a concrete input with a valid
bracket. -/
theorem C1_amended_witness :
    (0 : ℝ) ≤ pC1w.initialCapital ∧ 0 ≤ growthRate pC1w ∧
    (0 : ℝ) ≤ 1 + pC1w.annualReturn ∧
    pC1w.inheritanceTarget ≤
      terminalCapital pC1w (pC1w.initialCapital * 0.01) ∧
    terminalCapital pC1w (pC1w.initialCapital * 0.15) ≤
      pC1w.inheritanceTarget ∧
    |terminalCapital pC1w (solvedC1 pC1w) - pC1w.inheritanceTarget| ≤
      Bcoef pC1w (horizon pC1w).toNat *
        ((pC1w.initialCapital * 0.15 - pC1w.initialCapital * 0.01) / 2 ^ 49) := by
  have h1 : (0 : ℝ) ≤ pC1w.initialCapital := by norm_num [pC1w]
  have h2 : 0 ≤ growthRate pC1w := by
    rw [growthRate]
    exact Real.rpow_nonneg (by norm_num [beta, pC1w]) _
  have h3 : (0 : ℝ) ≤ 1 + pC1w.annualReturn := by norm_num [pC1w]
  have h4 : pC1w.inheritanceTarget ≤
      terminalCapital pC1w (pC1w.initialCapital * 0.01) := by
    rw [terminalCapital_pC1w]
    norm_num [pC1w]
  have h5 : terminalCapital pC1w (pC1w.initialCapital * 0.15) ≤
      pC1w.inheritanceTarget := by
    rw [terminalCapital_pC1w]
    norm_num [pC1w]
  exact ⟨h1, h2, h3, h4, h5, C1_amended_error_bound pC1w h1 h2 h3 h4 h5⟩

/-- Witness for C10 at a concrete input whose life expectancy equals the
current age. -/
theorem C10_witness :
    pC10.lifeExpectancy = pC10.currentAge ∧
    generateOptimizationData pC10 =
      [⟨0, max 0 pC10.initialCapital, solvedC1 pC10 * growthRate pC10 ^ 0⟩] :=
  ⟨rfl, (C10_total_no_error pC10).2 rfl⟩

end

end WealthPath
